import Mathlib

/-!
Shallow embedding of the prompt-batch generation pipeline in
`src/inference/run_batch.py` (function `main`, helpers `parse_csv` and
`generate_prompts`), together with models of the parts of the Python
standard library the code leans on: the `csv` module's reader and writer
(default dialect, `QUOTE_ALL`), `str.strip`, `str.replace`, `str.split`,
`str.isdigit` (restricted to ASCII digits), and POSIX `os.path.join`.
Strings are Lean `String`s; the CSV state machine follows CPython's
`_csv.c` reader states for the default dialect (delimiter `,`,
quote char `"`, doublequote on, non-strict).
-/

/-- States of the CPython csv reader state machine (default dialect,
reading; `QUOTE_ALL` does not change reader behaviour). -/
inductive CsvState where
  | startRecord
  | startField
  | inField
  | inQuoted
  | quoteInQuoted
  | eatCrnl
deriving Repr, DecidableEq

/-- The csv reader state machine of `csv.reader` (default dialect,
non-strict), run over the whole character stream. Arguments: state,
current field, current row, rows emitted so far, remaining input.
`none` models the reader raising `csv.Error` ("new-line character seen
in unquoted field"), which happens when data follows a bare `\r`
record terminator. -/
def csvRun : CsvState → List Char → List (List Char) → List (List (List Char)) →
    List Char → Option (List (List (List Char)))
  | st, field, row, rows, [] =>
    match st with
    | .startRecord => some rows
    | .eatCrnl => some rows
    | .startField => some (rows ++ [row ++ [field]])
    | .inField => some (rows ++ [row ++ [field]])
    | .inQuoted => some (rows ++ [row ++ [field]])
    | .quoteInQuoted => some (rows ++ [row ++ [field]])
  | st, field, row, rows, c :: cs =>
    match st with
    | .startRecord =>
      if c = '\n' then csvRun .startRecord [] [] (rows ++ [[]]) cs
      else if c = '\r' then csvRun .eatCrnl [] [] (rows ++ [[]]) cs
      else if c = '"' then csvRun .inQuoted [] [] rows cs
      else if c = ',' then csvRun .startField [] [[]] rows cs
      else csvRun .inField [c] [] rows cs
    | .startField =>
      if c = '\n' then csvRun .startRecord [] [] (rows ++ [row ++ [[]]]) cs
      else if c = '\r' then csvRun .eatCrnl [] [] (rows ++ [row ++ [[]]]) cs
      else if c = '"' then csvRun .inQuoted [] row rows cs
      else if c = ',' then csvRun .startField [] (row ++ [[]]) rows cs
      else csvRun .inField [c] row rows cs
    | .inField =>
      if c = '\n' then csvRun .startRecord [] [] (rows ++ [row ++ [field]]) cs
      else if c = '\r' then csvRun .eatCrnl [] [] (rows ++ [row ++ [field]]) cs
      else if c = ',' then csvRun .startField [] (row ++ [field]) rows cs
      else csvRun .inField (field ++ [c]) row rows cs
    | .inQuoted =>
      if c = '"' then csvRun .quoteInQuoted field row rows cs
      else csvRun .inQuoted (field ++ [c]) row rows cs
    | .quoteInQuoted =>
      if c = '"' then csvRun .inQuoted (field ++ ['"']) row rows cs
      else if c = ',' then csvRun .startField [] (row ++ [field]) rows cs
      else if c = '\n' then csvRun .startRecord [] [] (rows ++ [row ++ [field]]) cs
      else if c = '\r' then csvRun .eatCrnl [] [] (rows ++ [row ++ [field]]) cs
      else csvRun .inField (field ++ [c]) row rows cs
    | .eatCrnl =>
      if c = '\r' then csvRun .eatCrnl [] [] rows cs
      else if c = '\n' then csvRun .startRecord [] [] rows cs
      else none

/-- Model of `parse_csv` in run_batch.py: `list(csv.reader(io.StringIO(s), quoting=csv.QUOTE_ALL))`
wrapped in try/except that logs and returns `[]` on any `csv.Error`. -/
def parse_csv (s : String) : List (List String) :=
  match csvRun .startRecord [] [] [] s.data with
  | some rows => rows.map (fun r => r.map String.mk)
  | none => []

/-- Python `str.isspace` membership for the characters `str.strip` removes
(ASCII whitespace; Unicode-only whitespace is out of scope). -/
def py_isspace (c : Char) : Bool :=
  c = ' ' || c = '\t' || c = '\n' || c = '\r' || c = '\x0b' || c = '\x0c'

/-- Python `str.strip()`: drop whitespace from both ends. -/
def py_strip (s : String) : String :=
  String.mk (((s.data.dropWhile py_isspace).reverse.dropWhile py_isspace).reverse)

/-- Python `str.endswith(pat)`. -/
def ends_with (s pat : String) : Bool := pat.data.isSuffixOf s.data

/-- Python `str.startswith(pat)`. -/
def starts_with (s pat : String) : Bool := pat.data.isPrefixOf s.data

/-- Fuel-indexed scanner for Python `str.replace`: left-to-right,
non-overlapping, no rescan of the replacement. The fuel is the input
length, enough because every step consumes at least one character. -/
def replace_fuel (pat rep : List Char) : Nat → List Char → List Char
  | 0, l => l
  | _ + 1, [] => []
  | fuel + 1, c :: cs =>
    if pat.isPrefixOf (c :: cs) then
      rep ++ replace_fuel pat rep fuel (cs.drop (pat.length - 1))
    else c :: replace_fuel pat rep fuel cs

/-- Python `s.replace(pat, rep)` (for nonempty `pat`, the only uses here). -/
def str_replace (s pat rep : String) : String :=
  String.mk (replace_fuel pat.data rep.data s.data.length s.data)

/-- Python `int(s)` on a digit string. -/
def py_int_digits (s : String) : Nat :=
  s.data.foldl (fun acc c => acc * 10 + (c.toNat - '0'.toNat)) 0

/-- The structured response schema (`class PromptBatch(BaseModel)`). -/
structure PromptBatch where
  preamble : String
  csv : String
deriving Repr, DecidableEq

/-- The validation failures raised in `main` lines 89-108 (each is a
`ValueError` with a distinct message; we keep them apart by constructor). -/
inductive ValidationError where
  | emptyOutput (raw : String)
  | rowCountMismatch (expected got : Nat)
  | columnCount (index : Nat) (row : List String)
  | suffix (index : Nat) (path : String)
deriving Repr, DecidableEq

/-- The per-row loop of `main` lines 104-108: 1-based index, each row must
have exactly 2 fields and the second must end with `.mp4`; the first
offending row determines the error. -/
def checkRows : Nat → List (List String) → Option ValidationError
  | _, [] => none
  | i, row :: rest =>
    match row with
    | [_, out] =>
      if ends_with out ".mp4" then checkRows (i + 1) rest
      else some (.suffix i out)
    | _ => some (.columnCount i row)

/-- Header reconciliation of `main` lines 93-99: if the first parsed row is
exactly `["prompt", "output_path"]` it is the header and the rest are
candidates, otherwise the header is synthesized and all rows are candidates. -/
def reconcile (content : List (List String)) : List String × List (List String) :=
  match content with
  | [] => (["prompt", "output_path"], [])
  | first :: rest =>
    if first = ["prompt", "output_path"] then (["prompt", "output_path"], rest)
    else (["prompt", "output_path"], first :: rest)

/-- Model of `main` lines 87-108: strip the raw model output (`message.csv.strip()`),
parse it, and run the validation rules in order: emptiness, header
reconciliation, row count, per-row checks. -/
def validate (raw : String) (expected : Nat) :
    Except ValidationError (List String × List (List String)) :=
  let content := parse_csv (py_strip raw)
  if content.length < 1 then .error (.emptyOutput raw)
  else
    let hp := reconcile content
    if hp.2.length ≠ expected then .error (.rowCountMismatch expected hp.2.length)
    else
      match checkRows 1 hp.2 with
      | some e => .error e
      | none => .ok hp

/-- Doubling of quote characters done by `csv.writer` (doublequote dialect). -/
def escapeQuotes : List Char → List Char
  | [] => []
  | c :: cs => if c = '"' then '"' :: '"' :: escapeQuotes cs else c :: escapeQuotes cs

/-- A field as serialized by `csv.writer` with `QUOTE_ALL`: always wrapped
in quote characters, inner quotes doubled. -/
def quoteField (f : List Char) : List Char := '"' :: (escapeQuotes f ++ ['"'])

/-- The tail fields of a row, each preceded by the delimiter. -/
def commaFields (fs : List (List Char)) : List Char :=
  (fs.map (fun f => ',' :: quoteField f)).flatten

/-- All fields of a row joined by the delimiter, every field quoted. -/
def joinFields : List (List Char) → List Char
  | [] => []
  | f :: fs => quoteField f ++ commaFields fs

/-- One `writer.writerow` call: quoted fields joined by `,`, terminated by
the default line terminator `\r\n` (the file is opened with `newline=''`
so it is preserved verbatim). -/
def rowChars (r : List (List Char)) : List Char := joinFields r ++ ['\r', '\n']

/-- A sequence of `writerow` calls. -/
def rowsChars (rs : List (List (List Char))) : List Char := (rs.map rowChars).flatten

/-- String-level serialization of a list of rows, as the csv writer emits them. -/
def csvRowsString (rs : List (List String)) : String :=
  String.mk (rowsChars (rs.map (fun r => r.map String.data)))

/-- POSIX `os.path.join` on two components, as used at line 130. -/
def os_path_join (a b : String) : String :=
  if starts_with b "/" then b
  else if a = "" ∨ ends_with a "/" then a ++ b
  else a ++ "/" ++ b

/-- The loop body of `main` lines 129-131: a validated row `[prompt, out]`
is rewritten to `[prompt, os.path.join(out_dir, out)]`. Validation
guarantees every row has exactly 2 fields, so the catch-all branch is
never reached on pipeline inputs. -/
def rewriteRow (out_dir : String) (r : List String) : List String :=
  match r with
  | [prompt, out] => [prompt, os_path_join out_dir out]
  | _ => r

/-- Model of `main` lines 124-131: the manifest file content, header row first,
then one rewritten row per validated prompt, all fields fully quoted. -/
def writeManifestString (out_dir : String) (headers : List String)
    (prompts : List (List String)) : String :=
  csvRowsString (headers :: prompts.map (rewriteRow out_dir))

/-- The terminal failure surfaced when the retry policy is exhausted
(tenacity raises after the third failed attempt; `main` catches it at
lines 80-82). Carries the last underlying error message. -/
structure GenerationError where
  lastError : String
deriving Repr, DecidableEq

/-- The retry loop of the `@retry(stop=stop_after_attempt(3), ...)`
decorator on `generate_prompts`: attempt `i`; on failure, retry while
retries remain, otherwise surface the final error. The provider is
modelled as a map from attempt index to outcome. -/
def retryRun (f : Nat → Except String α) : Nat → Nat → Except GenerationError α
  | i, 0 =>
    match f i with
    | .ok a => .ok a
    | .error e => .error ⟨e⟩
  | i, n + 1 =>
    match f i with
    | .ok a => .ok a
    | .error _ => retryRun f (i + 1) n

/-- Model of `generate_prompts` under its retry decorator: at most 3 attempts total
(attempt indices 0, 1, 2). -/
def generate_prompts (f : Nat → Except String α) : Except GenerationError α :=
  retryRun f 0 2

/-- Model of `d.split("-")[0].replace("batch", "")` at line 117: the portion before
the first hyphen, with every occurrence of `batch` removed. -/
def seq_part (d : String) : String :=
  str_replace (String.mk (d.data.takeWhile (fun c => c ≠ '-'))) "batch" ""

/-- The guard of the list comprehension at line 117:
`d.startswith("batch") and d.split("-")[0].replace("batch", "").isdigit()`
(`isdigit` modelled on ASCII digit strings: nonempty and all digits). -/
def batch_name_ok (d : String) : Bool :=
  starts_with d "batch" &&
    (!(seq_part d).data.isEmpty && (seq_part d).data.all Char.isDigit)

/-- Model of `batch_numbers` at line 117: parsed sequence numbers of the existing
subdirectory names, malformed names silently dropped. -/
def batch_numbers (ds : List String) : List Nat :=
  (ds.filter batch_name_ok).map (fun d => py_int_digits (seq_part d))

/-- Model of `current_n = max(batch_numbers, default=0) + 1` at line 118. -/
def next_batch (ds : List String) : Nat :=
  (batch_numbers ds).foldl max 0 + 1

/-- Model of `sanitized_theme = args.theme.replace(" ", "_")` at line 119. -/
def sanitize_theme (theme : String) : String := str_replace theme " " "_"

/-- Modelled from the spec: the claim's description of name parsing for
the batch allocator, which strips a literal `batch` prefix (drops the
first 5 characters of a name that starts with `batch`) and splits on the
first hyphen to obtain a leading integer, ignoring all other names. -/
def batch_numbers_described (ds : List String) : List Nat :=
  ds.filterMap (fun d =>
    if starts_with d "batch" then
      let part := String.mk ((d.data.drop 5).takeWhile (fun c => c ≠ '-'))
      if !part.data.isEmpty && part.data.all Char.isDigit then
        some (py_int_digits part)
      else none
    else none)

/-- The allocator as the claim describes it, over the prefix-stripping parse. -/
def next_batch_described (ds : List String) : Nat :=
  (batch_numbers_described ds).foldl max 0 + 1

/-- The amended description of name parsing: take the portion of the name
before the first hyphen, remove every occurrence of the substring
`batch` from it, and accept the result when the name starts with `batch`
and the remainder is a nonempty digit string. -/
def batch_numbers_amended (ds : List String) : List Nat :=
  ds.filterMap (fun d =>
    if starts_with d "batch" then
      if !(seq_part d).data.isEmpty && (seq_part d).data.all Char.isDigit then
        some (py_int_digits (seq_part d))
      else none
    else none)

/-- The observable outcome of one pipeline run: the exit code (`none` means
the process ran to completion), the created batch directory if any, and
the written manifest content if any. -/
structure PipeResult where
  exitCode : Option Nat
  batchDir : Option String
  manifest : Option String
deriving Repr, DecidableEq

/-- Model of `main` lines 76-142 after client creation: handle the generation
outcome, validate, allocate the batch directory, write the manifest,
and run the downstream generator. `existing` is the list of immediate
subdirectory names of `./batches` (line 116 keeps only directories);
`downstreamOk` is whether the `cli_demo.py` subprocess exits zero. -/
def runPipeline (gen : Except GenerationError PromptBatch) (num_prompts : Nat)
    (theme : String) (existing : List String) (downstreamOk : Bool) : PipeResult :=
  match gen with
  | .error _ => ⟨some 1, none, none⟩
  | .ok message =>
    match validate message.csv num_prompts with
    | .error _ => ⟨some 1, none, none⟩
    | .ok (headers, prompts) =>
      let out_dir := "./batches/batch" ++ toString (next_batch existing) ++ "-" ++
        sanitize_theme theme
      ⟨if downstreamOk then none else some 1, some out_dir,
        some (writeManifestString out_dir headers prompts)⟩

/-- A well-shaped row is one a PromptRow can be read from: exactly two
fields, the second ending in `.mp4`. -/
def goodRow (r : List String) : Prop :=
  ∃ p o, r = [p, o] ∧ ends_with o ".mp4" = true

/-! ## Stepping lemmas for the csv reader machine -/

lemma string_data_mk (l : List Char) : (String.mk l).data = l := rfl

lemma string_mk_data (s : String) : String.mk s.data = s := rfl

lemma csvRun_nil_startRecord (rows : List (List (List Char))) :
    csvRun .startRecord [] [] rows [] = some rows := rfl

lemma csvRun_startRecord_quote (rows : List (List (List Char))) (cs : List Char) :
    csvRun .startRecord [] [] rows ('"' :: cs) = csvRun .inQuoted [] [] rows cs := rfl

lemma csvRun_startRecord_cr (rows : List (List (List Char))) (cs : List Char) :
    csvRun .startRecord [] [] rows ('\r' :: cs) =
      csvRun .eatCrnl [] [] (rows ++ [[]]) cs := rfl

lemma csvRun_startField_quote (row : List (List Char)) (rows : List (List (List Char)))
    (cs : List Char) :
    csvRun .startField [] row rows ('"' :: cs) = csvRun .inQuoted [] row rows cs := rfl

lemma csvRun_inQuoted_quote (field : List Char) (row : List (List Char))
    (rows : List (List (List Char))) (cs : List Char) :
    csvRun .inQuoted field row rows ('"' :: cs) =
      csvRun .quoteInQuoted field row rows cs := rfl

lemma csvRun_inQuoted_char (c : Char) (field : List Char) (row : List (List Char))
    (rows : List (List (List Char))) (cs : List Char) (h : c ≠ '"') :
    csvRun .inQuoted field row rows (c :: cs) =
      csvRun .inQuoted (field ++ [c]) row rows cs := by
  simp [csvRun, h]

lemma csvRun_qiq_quote (field : List Char) (row : List (List Char))
    (rows : List (List (List Char))) (cs : List Char) :
    csvRun .quoteInQuoted field row rows ('"' :: cs) =
      csvRun .inQuoted (field ++ ['"']) row rows cs := rfl

lemma csvRun_qiq_comma (field : List Char) (row : List (List Char))
    (rows : List (List (List Char))) (cs : List Char) :
    csvRun .quoteInQuoted field row rows (',' :: cs) =
      csvRun .startField [] (row ++ [field]) rows cs := rfl

lemma csvRun_qiq_cr (field : List Char) (row : List (List Char))
    (rows : List (List (List Char))) (cs : List Char) :
    csvRun .quoteInQuoted field row rows ('\r' :: cs) =
      csvRun .eatCrnl [] [] (rows ++ [row ++ [field]]) cs := rfl

lemma csvRun_eatCrnl_lf (rows : List (List (List Char))) (cs : List Char) :
    csvRun .eatCrnl [] [] rows ('\n' :: cs) = csvRun .startRecord [] [] rows cs := rfl

/-- Consuming an escaped field body followed by the closing quote. -/
lemma csvRun_escaped (f : List Char) : ∀ (field : List Char) (row : List (List Char))
    (rows : List (List (List Char))) (cs : List Char),
    csvRun .inQuoted field row rows (escapeQuotes f ++ '"' :: cs) =
      csvRun .quoteInQuoted (field ++ f) row rows cs := by
  induction f with
  | nil =>
    intro field row rows cs
    simp [escapeQuotes, csvRun_inQuoted_quote]
  | cons c f' ih =>
    intro field row rows cs
    by_cases h : c = '"'
    · subst h
      rw [show escapeQuotes ('"' :: f') = '"' :: '"' :: escapeQuotes f' from rfl]
      simp only [List.cons_append]
      rw [csvRun_inQuoted_quote, csvRun_qiq_quote, ih]
      simp
    · simp only [escapeQuotes, if_neg h, List.cons_append]
      rw [csvRun_inQuoted_char c _ _ _ _ h, ih]
      simp

/-- Consuming a whole quoted field starting at the head of a record. -/
lemma csvRun_quoteField_startRecord (f : List Char) (rows : List (List (List Char)))
    (cs : List Char) :
    csvRun .startRecord [] [] rows (quoteField f ++ cs) =
      csvRun .quoteInQuoted f [] rows cs := by
  simp only [quoteField, List.cons_append]
  rw [csvRun_startRecord_quote]
  rw [show (escapeQuotes f ++ ['"']) ++ cs = escapeQuotes f ++ '"' :: cs by simp]
  rw [csvRun_escaped]
  simp

/-- Consuming a whole quoted field after a delimiter. -/
lemma csvRun_quoteField_startField (f : List Char) (row : List (List Char))
    (rows : List (List (List Char))) (cs : List Char) :
    csvRun .startField [] row rows (quoteField f ++ cs) =
      csvRun .quoteInQuoted f row rows cs := by
  simp only [quoteField, List.cons_append]
  rw [csvRun_startField_quote]
  rw [show (escapeQuotes f ++ ['"']) ++ cs = escapeQuotes f ++ '"' :: cs by simp]
  rw [csvRun_escaped]
  simp

/-- Consuming the remaining fields of a row and its line terminator. -/
lemma csvRun_commaFields (fs : List (List Char)) : ∀ (field : List Char)
    (row : List (List Char)) (rows : List (List (List Char))) (cs : List Char),
    csvRun .quoteInQuoted field row rows (commaFields fs ++ '\r' :: '\n' :: cs) =
      csvRun .startRecord [] [] (rows ++ [row ++ [field] ++ fs]) cs := by
  induction fs with
  | nil =>
    intro field row rows cs
    simp only [commaFields, List.map_nil, List.flatten_nil, List.nil_append]
    rw [csvRun_qiq_cr, csvRun_eatCrnl_lf]
    simp
  | cons g gs ih =>
    intro field row rows cs
    simp only [commaFields, List.map_cons, List.flatten_cons, List.cons_append,
      List.append_assoc]
    rw [csvRun_qiq_comma, csvRun_quoteField_startField]
    rw [show (gs.map (fun f => ',' :: quoteField f)).flatten = commaFields gs from rfl]
    rw [ih]
    simp

/-- Consuming one serialized row returns to the start-of-record state with
that row appended. -/
lemma csvRun_rowChars (r : List (List Char)) (rows : List (List (List Char)))
    (cs : List Char) :
    csvRun .startRecord [] [] rows (rowChars r ++ cs) =
      csvRun .startRecord [] [] (rows ++ [r]) cs := by
  cases r with
  | nil =>
    simp only [rowChars, joinFields, List.nil_append, List.cons_append]
    rw [csvRun_startRecord_cr, csvRun_eatCrnl_lf]
  | cons f fs =>
    simp only [rowChars, joinFields, List.append_assoc, List.cons_append,
      List.nil_append]
    rw [csvRun_quoteField_startRecord, csvRun_commaFields]
    simp

/-- The machine accepts any serialized row list and returns exactly it. -/
lemma csvRun_rowsChars (rs : List (List (List Char))) :
    ∀ rows, csvRun .startRecord [] [] rows (rowsChars rs) = some (rows ++ rs) := by
  induction rs with
  | nil => intro rows; simp [rowsChars, csvRun_nil_startRecord]
  | cons r rs' ih =>
    intro rows
    simp only [rowsChars, List.map_cons, List.flatten_cons]
    rw [show (rs'.map rowChars).flatten = rowsChars rs' from rfl]
    rw [csvRun_rowChars, ih]
    simp

lemma mk_comp_data : String.mk ∘ String.data = id := funext string_mk_data

/-- Round trip: parsing anything the csv writer emitted reproduces the rows,
with the quoting removed. -/
lemma parse_csvRowsString (rs : List (List String)) : parse_csv (csvRowsString rs) = rs := by
  unfold parse_csv csvRowsString
  rw [string_data_mk, csvRun_rowsChars]
  simp [List.map_map, mk_comp_data]

/-! ## Validation lemmas -/

lemma reconcile_header (rows : List (List String)) :
    reconcile (["prompt", "output_path"] :: rows) = (["prompt", "output_path"], rows) := rfl

lemma reconcile_other (first : List String) (rows : List (List String))
    (h : first ≠ ["prompt", "output_path"]) :
    reconcile (first :: rows) = (["prompt", "output_path"], first :: rows) := by
  simp [reconcile, h]

lemma checkRows_ok (rows : List (List String)) :
    ∀ i, (∀ r ∈ rows, goodRow r) → checkRows i rows = none := by
  induction rows with
  | nil => intro i _; rfl
  | cons r rest ih =>
    intro i h
    obtain ⟨p, o, hr, ho⟩ := h r (List.mem_cons_self r rest)
    subst hr
    simp only [checkRows, ho, if_pos]
    exact ih (i + 1) (fun r' hr' => h r' (List.mem_cons_of_mem _ hr'))

lemma checkRows_append (pre : List (List String)) :
    ∀ i rest, (∀ r ∈ pre, goodRow r) →
      checkRows i (pre ++ rest) = checkRows (i + pre.length) rest := by
  induction pre with
  | nil => intro i rest _; simp
  | cons r pre' ih =>
    intro i rest h
    obtain ⟨p, o, hr, ho⟩ := h r (List.mem_cons_self r pre')
    subst hr
    simp only [List.cons_append, checkRows, ho, if_pos, List.append_eq]
    rw [ih (i + 1) rest (fun r' hr' => h r' (List.mem_cons_of_mem _ hr'))]
    have harith : i + 1 + pre'.length = i + ([p, o] :: pre').length := by
      simp only [List.length_cons]
      omega
    rw [harith]

lemma validate_cons (raw : String) (N : Nat) (first : List String)
    (rest : List (List String)) (h : parse_csv (py_strip raw) = first :: rest) :
    validate raw N =
      (if (reconcile (first :: rest)).2.length ≠ N then
        Except.error (.rowCountMismatch N (reconcile (first :: rest)).2.length)
      else
        match checkRows 1 (reconcile (first :: rest)).2 with
        | some e => Except.error e
        | none => Except.ok (reconcile (first :: rest))) := by
  unfold validate
  rw [h]
  simp

lemma validate_ok_shape (raw : String) (N : Nat) (headers : List String)
    (rows : List (List String)) (h : validate raw N = .ok (headers, rows)) :
    headers = ["prompt", "output_path"] ∧ rows.length = N := by
  unfold validate at h
  by_cases h0 : (parse_csv (py_strip raw)).length < 1
  · simp [h0] at h
  · simp only [h0, if_false] at h
    by_cases h1 : (reconcile (parse_csv (py_strip raw))).2.length ≠ N
    · simp [h1] at h
    · simp only [h1, if_false] at h
      cases hc : checkRows 1 (reconcile (parse_csv (py_strip raw))).2 with
      | some e => rw [hc] at h; simp at h
      | none =>
        rw [hc] at h
        simp only [Except.ok.injEq] at h
        have h2 : (reconcile (parse_csv (py_strip raw))).1 = ["prompt", "output_path"] := by
          cases parse_csv (py_strip raw) with
          | nil => rfl
          | cons a b => by_cases ha : a = ["prompt", "output_path"] <;> simp [reconcile, ha]
        rw [h] at h2 h1
        push_neg at h1
        exact ⟨by simpa using h2, by simpa using h1⟩

lemma validate_cons_header (raw : String) (N : Nat) (rows : List (List String))
    (hp : parse_csv (py_strip raw) = ["prompt", "output_path"] :: rows) :
    validate raw N =
      (if rows.length ≠ N then Except.error (.rowCountMismatch N rows.length)
      else
        match checkRows 1 rows with
        | some e => Except.error e
        | none => Except.ok (["prompt", "output_path"], rows)) := by
  rw [validate_cons raw N _ _ hp, reconcile_header]

lemma validate_cons_other (raw : String) (N : Nat) (first : List String)
    (rest : List (List String)) (hp : parse_csv (py_strip raw) = first :: rest)
    (hne : first ≠ ["prompt", "output_path"]) :
    validate raw N =
      (if (first :: rest).length ≠ N then
        Except.error (.rowCountMismatch N (first :: rest).length)
      else
        match checkRows 1 (first :: rest) with
        | some e => Except.error e
        | none => Except.ok (["prompt", "output_path"], first :: rest)) := by
  rw [validate_cons raw N _ _ hp, reconcile_other first rest hne]

lemma checkRows_colErr (i : Nat) (row : List String) (post : List (List String))
    (h : row.length ≠ 2) :
    checkRows i (row :: post) = some (.columnCount i row) := by
  cases row with
  | nil => rfl
  | cons a t =>
    cases t with
    | nil => rfl
    | cons b t2 =>
      cases t2 with
      | nil => simp at h
      | cons c t3 => rfl

lemma checkRows_suffixErr (i : Nat) (p o : String) (post : List (List String))
    (h : ends_with o ".mp4" = false) :
    checkRows i ([p, o] :: post) = some (.suffix i o) := by
  simp [checkRows, h]

/-! ## Claims -/

/-- C1: for every raw CSV string whose first parsed row is exactly
`["prompt", "output_path"]` followed by exactly `N` candidate rows, each
with exactly 2 fields and the second ending in `.mp4`, validation
succeeds and returns exactly those `N` rows in order, with the first
row as the header. -/
theorem claim_C1_valid_csv_accepted (raw : String) (N : Nat) (rows : List (List String))
    (hp : parse_csv (py_strip raw) = ["prompt", "output_path"] :: rows)
    (hn : rows.length = N)
    (hr : ∀ r ∈ rows, goodRow r) :
    validate raw N = .ok (["prompt", "output_path"], rows) := by
  rw [validate_cons_header raw N rows hp]
  rw [if_neg (by simp [hn])]
  rw [checkRows_ok rows 1 hr]

/-- Witness for C1 at a concrete two-row body with a correct header. -/
theorem claim_C1_witness :
    validate "\"prompt\",\"output_path\"\n\"a cat runs\",\"out1.mp4\"" 1 =
      .ok (["prompt", "output_path"], [["a cat runs", "out1.mp4"]]) :=
  claim_C1_valid_csv_accepted _ 1 [["a cat runs", "out1.mp4"]] rfl rfl
    (by
      intro r hr
      simp only [List.mem_singleton] at hr
      exact ⟨"a cat runs", "out1.mp4", hr, rfl⟩)

/-- C6: for every raw CSV string whose first parsed row is not exactly
`["prompt", "output_path"]`, validation synthesizes the header and
treats all parsed rows as candidates, so it still requires exactly `N`
candidate rows to succeed. -/
theorem claim_C6_header_synthesis (raw : String) (N : Nat) (first : List String)
    (rest : List (List String)) (hp : parse_csv (py_strip raw) = first :: rest)
    (hne : first ≠ ["prompt", "output_path"]) :
    ((first :: rest).length ≠ N →
      validate raw N = .error (.rowCountMismatch N (first :: rest).length))
    ∧ (∀ headers rows, validate raw N = .ok (headers, rows) →
        headers = ["prompt", "output_path"] ∧ rows = first :: rest ∧ rows.length = N) := by
  have hv := validate_cons_other raw N first rest hp hne
  constructor
  · intro hlen
    rw [hv, if_pos hlen]
  · intro headers rows hok
    rw [hv] at hok
    by_cases hlen : (first :: rest).length ≠ N
    · rw [if_pos hlen] at hok
      exact absurd hok (by simp)
    · rw [if_neg hlen] at hok
      push_neg at hlen
      cases hc : checkRows 1 (first :: rest) with
      | some e =>
        rw [hc] at hok
        exact absurd hok (by simp)
      | none =>
        rw [hc] at hok
        simp only [Except.ok.injEq, Prod.mk.injEq] at hok
        obtain ⟨h1, h2⟩ := hok
        rw [h2] at hlen
        exact ⟨h1.symm, h2.symm, hlen⟩

/-- Witness for C6: a headerless one-row body with `num_prompts = 2` is
rejected for row count over all parsed rows. -/
theorem claim_C6_witness :
    validate "\"p1\",\"a.mp4\"" 2 = .error (.rowCountMismatch 2 1) :=
  (claim_C6_header_synthesis "\"p1\",\"a.mp4\"" 2 ["p1", "a.mp4"] [] rfl
    (by decide)).1 (by decide)

/-- C7 counterexample: on the empty raw string with expected count 1 the
candidate row count after header reconciliation is 0, which differs from
the expected count, yet validation fails with `EmptyOutputError` (a
different error constructor), not `RowCountMismatchError`. -/
theorem claim_C7_counterexample :
    (reconcile (parse_csv (py_strip ""))).2.length ≠ 1
    ∧ validate "" 1 = .error (.emptyOutput "")
    ∧ ValidationError.emptyOutput "" ≠ .rowCountMismatch 1 0 :=
  ⟨by decide, rfl, by decide⟩

/-- C7 (amended): for every raw CSV string from which at least one row is
parsed, if the number of candidate rows after header reconciliation
differs from the expected count, validation fails with
`RowCountMismatchError`. -/
theorem claim_C7_amended_row_count (raw : String) (N : Nat) (first : List String)
    (rest : List (List String)) (hp : parse_csv (py_strip raw) = first :: rest)
    (hlen : (reconcile (first :: rest)).2.length ≠ N) :
    validate raw N =
      .error (.rowCountMismatch N (reconcile (first :: rest)).2.length) := by
  rw [validate_cons raw N first rest hp, if_pos hlen]

/-- Witness for C7: `num_prompts = 3` with a header plus only 2 data rows
fails with the row-count mismatch error. -/
theorem claim_C7_witness :
    validate "\"prompt\",\"output_path\"\n\"p1\",\"a.mp4\"\n\"p2\",\"b.mp4\"" 3 =
      .error (.rowCountMismatch 3 2) :=
  claim_C7_amended_row_count _ 3 ["prompt", "output_path"]
    [["p1", "a.mp4"], ["p2", "b.mp4"]] rfl (by decide)

/-- C8: for the first candidate row violating the per-row checks (all
earlier rows being well-shaped), validation fails with
`ColumnCountError` when the row does not have exactly 2 fields, and with
`SuffixError` when it has 2 fields whose second does not end in `.mp4`;
indices are 1-based. -/
theorem claim_C8_column_and_suffix (raw : String) (N : Nat) (first : List String)
    (rest : List (List String)) (pre : List (List String)) (row : List String)
    (post : List (List String))
    (hc : parse_csv (py_strip raw) = first :: rest)
    (hp : (reconcile (first :: rest)).2 = pre ++ row :: post)
    (hlen : (pre ++ row :: post).length = N)
    (hpre : ∀ r ∈ pre, goodRow r) :
    (row.length ≠ 2 → validate raw N = .error (.columnCount (pre.length + 1) row))
    ∧ (∀ p o, row = [p, o] → ends_with o ".mp4" = false →
        validate raw N = .error (.suffix (pre.length + 1) o)) := by
  have hv := validate_cons raw N first rest hc
  rw [hp, hlen] at hv
  rw [if_neg (fun hh => hh rfl)] at hv
  constructor
  · intro h2
    rw [hv, checkRows_append pre 1 (row :: post) hpre,
      checkRows_colErr _ row post h2, Nat.add_comm 1 pre.length]
  · intro p o hrow hsuf
    subst hrow
    rw [hv, checkRows_append pre 1 _ hpre,
      checkRows_suffixErr _ p o post hsuf, Nat.add_comm 1 pre.length]

/-- Witness for C8: the row `"a prompt",output.avi` fails with the suffix
error, and a one-field row fails with the column-count error. -/
theorem claim_C8_witness :
    validate "\"a prompt\",output.avi" 1 = .error (.suffix 1 "output.avi")
    ∧ validate "\"x\"" 1 = .error (.columnCount 1 ["x"]) :=
  ⟨(claim_C8_column_and_suffix "\"a prompt\",output.avi" 1 ["a prompt", "output.avi"]
      [] [] ["a prompt", "output.avi"] [] rfl rfl rfl
      (fun r hr => absurd hr (List.not_mem_nil r))).2
      "a prompt" "output.avi" rfl rfl,
    (claim_C8_column_and_suffix "\"x\"" 1 ["x"] [] [] ["x"] [] rfl rfl rfl
      (fun r hr => absurd hr (List.not_mem_nil r))).1 (by decide)⟩

/-- C9: whenever zero rows are parsed from the raw model output — in
particular when the csv reader raises, which `parse_csv` converts to an
empty row list instead of propagating — validation fails with
`EmptyOutputError`. -/
theorem claim_C9_empty_output (raw : String) (N : Nat) :
    (csvRun .startRecord [] [] [] (py_strip raw).data = none → parse_csv (py_strip raw) = [])
    ∧ (parse_csv (py_strip raw) = [] → validate raw N = .error (.emptyOutput raw)) := by
  constructor
  · intro h
    unfold parse_csv
    rw [h]
  · intro h
    simp [validate, h]

/-- Witness for C9: the empty string parses to zero rows, and the string
`a\rb` makes the reader raise (bare carriage return followed by data);
both are rejected as empty output. -/
theorem claim_C9_witness :
    parse_csv (py_strip "a\rb") = []
    ∧ validate "" 1 = .error (.emptyOutput "")
    ∧ validate "a\rb" 1 = .error (.emptyOutput "a\rb") :=
  ⟨(claim_C9_empty_output "a\rb" 1).1 rfl,
    (claim_C9_empty_output "" 1).2 rfl,
    (claim_C9_empty_output "a\rb" 1).2 rfl⟩

lemma checkRows_none_good (rows : List (List String)) :
    ∀ i, checkRows i rows = none → ∀ r ∈ rows, goodRow r := by
  induction rows with
  | nil => intro i _ r hr; exact absurd hr (List.not_mem_nil r)
  | cons a rest ih =>
    intro i h r hr
    cases a with
    | nil => simp [checkRows] at h
    | cons p t =>
      cases t with
      | nil => simp [checkRows] at h
      | cons o t2 =>
        cases t2 with
        | cons c t3 => simp [checkRows] at h
        | nil =>
          by_cases ho : ends_with o ".mp4" = true
          · simp only [checkRows, ho, if_pos] at h
            rcases List.mem_cons.mp hr with h1 | h2
            · exact ⟨p, o, h1, ho⟩
            · exact ih (i + 1) h r h2
          · rw [Bool.not_eq_true] at ho
            simp [checkRows, ho] at h

lemma validate_ok_checkRows (raw : String) (N : Nat) (headers : List String)
    (rows : List (List String)) (h : validate raw N = .ok (headers, rows)) :
    checkRows 1 rows = none := by
  unfold validate at h
  by_cases h0 : (parse_csv (py_strip raw)).length < 1
  · simp [h0] at h
  · simp only [h0, if_false] at h
    by_cases h1 : (reconcile (parse_csv (py_strip raw))).2.length ≠ N
    · simp [h1] at h
    · simp only [h1, if_false] at h
      cases hc : checkRows 1 (reconcile (parse_csv (py_strip raw))).2 with
      | some e => rw [hc] at h; simp at h
      | none =>
        rw [hc] at h
        simp only [Except.ok.injEq] at h
        rw [h] at hc
        exact hc

/-- C2: for every validated batch, the written manifest is the header row
`prompt,output_path` followed by one row per validated PromptRow in
their original order, every field fully quoted, with each row's output
path rewritten to `os.path.join(batch_dir, original)`; parsing the
written manifest back reproduces exactly those rows with quoting
removed. -/
theorem claim_C2_manifest_contents (raw : String) (N : Nat) (out_dir : String)
    (headers : List String) (rows : List (List String))
    (hv : validate raw N = .ok (headers, rows)) :
    parse_csv (writeManifestString out_dir headers rows) =
      ["prompt", "output_path"] :: rows.map (rewriteRow out_dir)
    ∧ (∀ r ∈ rows, ∃ p o, r = [p, o] ∧
        rewriteRow out_dir r = [p, os_path_join out_dir o]) := by
  have hgood := checkRows_none_good rows 1 (validate_ok_checkRows raw N headers rows hv)
  constructor
  · have hh := (validate_ok_shape raw N headers rows hv).1
    rw [hh, writeManifestString]
    exact parse_csvRowsString _
  · intro r hr
    obtain ⟨p, o, hro, _⟩ := hgood r hr
    exact ⟨p, o, hro, by subst hro; rfl⟩

/-- Witness for C2: a one-row validated batch round-trips through the
manifest with its output path qualified under the batch directory. -/
theorem claim_C2_witness :
    parse_csv (writeManifestString "./batches/batch1-cats" ["prompt", "output_path"]
      [["a cat runs", "out1.mp4"]]) =
      [["prompt", "output_path"], ["a cat runs", "./batches/batch1-cats/out1.mp4"]] :=
  (claim_C2_manifest_contents "\"prompt\",\"output_path\"\n\"a cat runs\",\"out1.mp4\""
    1 "./batches/batch1-cats" ["prompt", "output_path"] [["a cat runs", "out1.mp4"]]
    rfl).1

/-- C5: a validation failure exits with code 1 before the batch directory
is created and before any manifest is written, so neither exists; and
whenever a manifest exists it contains exactly the requested number of
data rows (plus the header row). -/
theorem claim_C5_all_or_nothing (gen : Except GenerationError PromptBatch) (N : Nat)
    (theme : String) (existing : List String) (down : Bool) :
    (∀ message e, gen = .ok message → validate message.csv N = .error e →
      runPipeline gen N theme existing down = ⟨some 1, none, none⟩)
    ∧ (∀ m, (runPipeline gen N theme existing down).manifest = some m →
        (parse_csv m).length = N + 1) := by
  constructor
  · intro message e hg hv
    subst hg
    simp [runPipeline, hv]
  · intro m hm
    cases gen with
    | error e => simp [runPipeline] at hm
    | ok message =>
      cases hv : validate message.csv N with
      | error e => simp [runPipeline, hv] at hm
      | ok pr =>
        cases pr with
        | mk headers rows =>
          have hlen := (validate_ok_shape message.csv N headers rows hv).2
          simp only [runPipeline, hv] at hm
          have hmm := Option.some.inj hm
          rw [← hmm]
          unfold writeManifestString
          rw [parse_csvRowsString]
          simp [hlen]

/-- Witness for C5: a malformed body yields exit 1 with no directory and no
manifest; a valid one-prompt run writes a manifest with 1 + 1 rows. -/
theorem claim_C5_witness :
    runPipeline (.ok ⟨"p", "bad"⟩) 1 "t" [] true = ⟨some 1, none, none⟩
    ∧ (parse_csv "\"prompt\",\"output_path\"\r\n\"a cat runs\",\"./batches/batch1-t/out1.mp4\"\r\n").length
        = 1 + 1 :=
  ⟨(claim_C5_all_or_nothing (.ok ⟨"p", "bad"⟩) 1 "t" [] true).1 ⟨"p", "bad"⟩
      (.columnCount 1 ["bad"]) rfl rfl,
    (claim_C5_all_or_nothing
      (.ok ⟨"p", "\"prompt\",\"output_path\"\n\"a cat runs\",\"out1.mp4\""⟩)
      1 "t" [] true).2
      "\"prompt\",\"output_path\"\r\n\"a cat runs\",\"./batches/batch1-t/out1.mp4\"\r\n" rfl⟩

/-- C10: an absolute output path (one beginning with the path separator)
is written to the manifest unchanged, because `os.path.join` discards
the batch directory; a relative path is qualified under the batch
directory. -/
theorem claim_C10_absolute_paths (out p o : String) :
    (starts_with o "/" = true → rewriteRow out [p, o] = [p, o])
    ∧ (starts_with o "/" = false → out ≠ "" → ends_with out "/" = false →
        rewriteRow out [p, o] = [p, out ++ "/" ++ o]) := by
  constructor
  · intro h
    simp [rewriteRow, os_path_join, h]
  · intro h1 h2 h3
    simp [rewriteRow, os_path_join, h1, h2, h3]

/-- Witness for C10 at the batch directory `./batches/batch1-t`. -/
theorem claim_C10_witness :
    rewriteRow "./batches/batch1-t" ["x", "/abs/v.mp4"] = ["x", "/abs/v.mp4"]
    ∧ rewriteRow "./batches/batch1-t" ["x", "out.mp4"] =
        ["x", "./batches/batch1-t/out.mp4"] :=
  ⟨(claim_C10_absolute_paths "./batches/batch1-t" "x" "/abs/v.mp4").1 rfl,
    (claim_C10_absolute_paths "./batches/batch1-t" "x" "out.mp4").2 rfl
      (by decide) rfl⟩

lemma retryRun_succ (f : Nat → Except String α) (i n : Nat) :
    retryRun f i (n + 1) =
      match f i with
      | .ok a => .ok a
      | .error _ => retryRun f (i + 1) n := rfl

lemma retryRun_zero (f : Nat → Except String α) (i : Nat) :
    retryRun f i 0 =
      match f i with
      | .ok a => .ok a
      | .error e => .error ⟨e⟩ := rfl

/-- C4: the request is attempted at most 3 times total (the result depends
only on the first 3 attempt outcomes); failing twice then succeeding on
the third attempt returns the successful result; failing all 3 attempts
propagates a `GenerationError`, after which the pipeline terminates with
exit code 1 and produces nothing. -/
theorem claim_C4_retry_policy :
    (∀ (f g : Nat → Except String PromptBatch), (∀ i, i < 3 → f i = g i) →
      generate_prompts f = generate_prompts g)
    ∧ (∀ (f : Nat → Except String PromptBatch) (e0 e1 : String) (r : PromptBatch),
        f 0 = .error e0 → f 1 = .error e1 → f 2 = .ok r →
        generate_prompts f = .ok r)
    ∧ (∀ (f : Nat → Except String PromptBatch) (e0 e1 e2 : String),
        f 0 = .error e0 → f 1 = .error e1 → f 2 = .error e2 →
        generate_prompts f = .error ⟨e2⟩
        ∧ ∀ N theme existing down,
            runPipeline (generate_prompts f) N theme existing down =
              ⟨some 1, none, none⟩) := by
  refine ⟨?_, ?_, ?_⟩
  · intro f g h
    unfold generate_prompts
    rw [retryRun_succ f 0 1, retryRun_succ g 0 1, h 0 (by omega)]
    cases g 0 with
    | ok a => rfl
    | error e =>
      rw [retryRun_succ f 1 0, retryRun_succ g 1 0, h 1 (by omega)]
      cases g 1 with
      | ok a => rfl
      | error e1 =>
        rw [retryRun_zero f 2, retryRun_zero g 2, h 2 (by omega)]
  · intro f e0 e1 r h0 h1 h2
    unfold generate_prompts
    rw [retryRun_succ f 0 1, h0]
    show retryRun f 1 1 = .ok r
    rw [retryRun_succ f 1 0, h1]
    show retryRun f 2 0 = .ok r
    rw [retryRun_zero f 2, h2]
  · intro f e0 e1 e2 h0 h1 h2
    have hg : generate_prompts f = .error ⟨e2⟩ := by
      unfold generate_prompts
      rw [retryRun_succ f 0 1, h0]
      show retryRun f 1 1 = .error ⟨e2⟩
      rw [retryRun_succ f 1 0, h1]
      show retryRun f 2 0 = .error ⟨e2⟩
      rw [retryRun_zero f 2, h2]
    exact ⟨hg, fun N theme existing down => by rw [hg]; rfl⟩

/-- Witness for C4: two failures then a success returns the success; three
failures surface the terminal error. -/
theorem claim_C4_witness :
    generate_prompts (fun i => if i = 0 then .error "a" else if i = 1 then .error "b"
      else .ok (⟨"p", "c"⟩ : PromptBatch)) = .ok ⟨"p", "c"⟩
    ∧ generate_prompts (fun _ => (.error "x" : Except String PromptBatch)) =
        .error ⟨"x"⟩ :=
  ⟨claim_C4_retry_policy.2.1
      (fun i => if i = 0 then .error "a" else if i = 1 then .error "b"
        else .ok ⟨"p", "c"⟩) "a" "b" ⟨"p", "c"⟩ rfl rfl rfl,
    (claim_C4_retry_policy.2.2 (fun _ => .error "x") "x" "x" "x" rfl rfl rfl).1⟩

lemma batch_numbers_eq_amended (ds : List String) :
    batch_numbers ds = batch_numbers_amended ds := by
  induction ds with
  | nil => rfl
  | cons d ds' ih =>
    by_cases h1 : starts_with d "batch" = true
    · by_cases h2 : (!(seq_part d).data.isEmpty && (seq_part d).data.all Char.isDigit)
        = true
      · simp_all [batch_numbers, batch_numbers_amended, List.filter_cons,
          List.filterMap_cons, batch_name_ok]
      · simp_all [batch_numbers, batch_numbers_amended, List.filter_cons,
          List.filterMap_cons, batch_name_ok]
    · simp_all [batch_numbers, batch_numbers_amended, List.filter_cons,
        List.filterMap_cons, batch_name_ok]

/-- C3 counterexample: the allocator does not parse names by stripping a
literal `batch` prefix; it removes every occurrence of the substring
`batch` from the portion before the first hyphen. On the existing set
`{batch1batch}` the code parses sequence number 1 and allocates 2, while
the prefix-stripping parse the claim describes ignores the name and
would allocate 1. -/
theorem claim_C3_counterexample :
    next_batch ["batch1batch"] = 2
    ∧ next_batch_described ["batch1batch"] = 1
    ∧ next_batch ["batch1batch"] ≠ next_batch_described ["batch1batch"] :=
  ⟨by decide, by decide, by decide⟩

/-- C3 (amended): for every set of existing subdirectory names, the
allocator keeps the names starting with `batch` whose portion before the
first hyphen becomes a nonempty digit string after removing every
occurrence of `batch`, parses those as sequence numbers, silently
ignores all other names, and chooses `max(parsed, default 0) + 1`; over
`{batch1-x, batch3-y, notabatch}` it yields 4. -/
theorem claim_C3_amended_allocator :
    (∀ ds, next_batch ds = (batch_numbers_amended ds).foldl max 0 + 1)
    ∧ next_batch ["batch1-x", "batch3-y", "notabatch"] = 4 :=
  ⟨fun ds => by unfold next_batch; rw [batch_numbers_eq_amended], by decide⟩
